import Mathlib

/-!
Verification development for the `videoagent` backend
(`backend/app/main.py`, `backend/app/services/video_processor.py`,
`backend/app/models/schemas.py`).

The Python sources are shallowly embedded: machine floats are modelled by
exact rationals (every arithmetic operation the pipeline performs on the
claimed inputs is exact), Python lists by `List`, Python dicts either by
association lists (most recent binding first, as produced by repeated
assignment) or by explicit structures, and fallible code by `Except`.
Square roots are kept symbolic: the embedding carries squared distances and
the theorems relate them to `Real.sqrt` of the same quantities.
-/

namespace VideoAgent

/-! ### Pseudo-detector (`VideoProcessor.detect_objects_simple`) -/

/-- A bounding rectangle as returned by `cv2.boundingRect` (integer
coordinates and extents). -/
structure Rect where
  x : ℕ
  y : ℕ
  w : ℕ
  h : ℕ
deriving DecidableEq, Repr

/-- One mock prediction produced by `detect_objects_simple`
(`class` / `score` / `bbox` dictionary). -/
structure Pred where
  cls : String
  score : ℚ
  bboxX : ℚ
  bboxY : ℚ
  bboxW : ℚ
  bboxH : ℚ
deriving DecidableEq, Repr

/-- The prediction built for a contour whose bounding rectangle passed the
`area > 1000` test: `confidence = min(0.5 + area / 10000, 0.95)` and the
class ladder `area > 5000` -> person, `area > 2000` -> car when `w > h`
else person, otherwise object (`video_processor.py` lines 103-120). -/
def predOf (r : Rect) : Pred :=
  let area : ℕ := r.w * r.h
  let confidence : ℚ := min (1/2 + (area : ℚ) / 10000) (19/20)
  let cls : String :=
    if 5000 < area then "person"
    else if 2000 < area then (if r.h < r.w then "car" else "person")
    else "object"
  { cls := cls, score := confidence,
    bboxX := (r.x : ℚ), bboxY := (r.y : ℚ), bboxW := (r.w : ℚ), bboxH := (r.h : ℚ) }

/-- The `detect_objects_simple`, embedded on the list of bounding rectangles of
the external contours of the frame (the grayscale/Canny/findContours steps
only produce that list).  The Python loop walks `contours[:10]` and appends
a prediction exactly when `area > 1000`; a `None` image yields no contours
and hence `[]`. -/
def detect_objects_simple (contours : List Rect) : List Pred :=
  (contours.take 10).filterMap (fun r =>
    if 1000 < r.w * r.h then some (predOf r) else none)

/-! ### Detections (`VideoProcessor.detect_objects_in_frames`) -/

/-- The `ObjectDetection` of `schemas.py` (the `bbox` dict is flattened into
four fields; the aspect-ratio field is named `aspectRatioVal`). -/
structure ObjectDetection where
  object_id : String
  object_type : String
  confidence : ℚ
  bboxX : ℚ
  bboxY : ℚ
  bboxW : ℚ
  bboxH : ℚ
  frame_number : ℕ
  timestamp : ℚ
  size : ℚ
  aspectRatioVal : ℚ
deriving DecidableEq, Repr

/-- The `ObjectDetection` built from prediction `p` (index `j`) of frame
`i` (`video_processor.py` lines 135-149). -/
def mkDetection (jid : String) (i j : ℕ) (p : Pred) : ObjectDetection :=
  { object_id := jid ++ "_" ++ toString i ++ "_" ++ toString j
    object_type := p.cls
    confidence := p.score
    bboxX := p.bboxX, bboxY := p.bboxY, bboxW := p.bboxW, bboxH := p.bboxH
    frame_number := i + 1
    timestamp := (i : ℚ) * 2
    size := p.bboxW * p.bboxH
    aspectRatioVal := if 0 < p.bboxH then p.bboxW / p.bboxH else 1 }

/-- Inner loop of `detect_objects_in_frames`: enumerate the predictions of
frame `i` (index `j`) and keep those with `score > 0.5`. -/
def detFrameLoop (jid : String) (i : ℕ) : ℕ → List Pred → List ObjectDetection
  | _, [] => []
  | j, p :: rest =>
    (if 1/2 < p.score then [mkDetection jid i j p] else []) ++ detFrameLoop jid i (j + 1) rest

/-- Outer loop of `detect_objects_in_frames`: enumerate the frames
(index `i`) and run the detector on each. -/
def framesLoop (jid : String) : ℕ → List (List Rect) → List ObjectDetection
  | _, [] => []
  | i, f :: rest => detFrameLoop jid i 0 (detect_objects_simple f) ++ framesLoop jid (i + 1) rest

/-- The `detect_objects_in_frames` (`video_processor.py` lines 124-152), with
each frame represented by its contour rectangles (`cv2.imread` returning
`None` corresponds to an empty list). -/
def detect_objects_in_frames (frames : List (List Rect)) (jid : String) : List ObjectDetection :=
  framesLoop jid 0 frames

/-! ### Frame sampler (`VideoProcessor.extract_frames`) -/

/-- The `frame_interval = int(fps / frame_rate) if fps > 0 else 30`
(`video_processor.py` line 66); `int` truncates toward zero, which on a
positive quotient is the floor. -/
def frame_interval (fps : ℚ) (rate : ℚ := 1/2) : ℕ :=
  if 0 < fps then (⌊fps / rate⌋).toNat else 30

/-- The frame-reading loop: frame `k` is kept iff `k % frame_interval == 0`.
Python raises `ZeroDivisionError` when the interval is `0` and a frame is
read. -/
def extractLoop (interval : ℕ) : ℕ → List α → Except String (List α)
  | _, [] => Except.ok []
  | k, f :: fs =>
    if interval = 0 then Except.error "integer division or modulo by zero"
    else (extractLoop interval (k + 1) fs).map
      (fun rest => if k % interval = 0 then f :: rest else rest)

/-- The `extract_frames`, abstracting the video to its sequence of frames (the
saved file paths are returned in capture order, so the output is the kept
subsequence of the input). -/
def extract_frames (fps : ℚ) (frames : List α) (rate : ℚ := 1/2) : Except String (List α) :=
  extractLoop (frame_interval fps rate) 0 frames

/-- The sampling the spec describes: starting at index `k`, keep exactly
the frames whose index satisfies `index % interval = 0`, in capture
order.  Stated from the claim, to be compared with `extract_frames`. -/
def keptFrames (interval : ℕ) : ℕ → List α → List α
  | _, [] => []
  | k, f :: fs =>
    if k % interval = 0 then f :: keptFrames interval (k + 1) fs
    else keptFrames interval (k + 1) fs

/-! ### Movements (`VideoProcessor.extract_movements`, `calculate_direction`) -/

/-- The `Movement` of `schemas.py`.  The source stores the float values
`distance = sqrt(dx^2 + dy^2)` and `speed = distance / 2.0`; the embedding
carries their exact squares `dist2` and `speed2` (the theorems relate them
through `Real.sqrt`). -/
structure Movement where
  object_type : String
  dist2 : ℚ
  direction : String
  speed2 : ℚ
  timestamp : ℚ
  startX : ℚ
  startY : ℚ
  endX : ℚ
  endY : ℚ
deriving DecidableEq, Repr

/-- The center abscissa `bbox.x + bbox.width / 2` of a detection. -/
def centerX (d : ObjectDetection) : ℚ := d.bboxX + d.bboxW / 2

/-- The center ordinate `bbox.y + bbox.height / 2` of a detection. -/
def centerY (d : ObjectDetection) : ℚ := d.bboxY + d.bboxH / 2

/-- Python dict lookup on an association list whose most recent binding is
first. -/
def dictFind (m : List (String × ℚ × ℚ)) (k : String) : Option (ℚ × ℚ) :=
  match m with
  | [] => none
  | (k2, v) :: rest => if k = k2 then some v else dictFind rest k

/-- The `calculate_direction` (`video_processor.py` lines 192-204).  The source
computes `angle = atan2(dy, dx) * 180 / pi` and tests
`-45 <= angle < 45` / `45 <= angle < 135` / `135 <= angle or angle < -135`
/ else.  Those sector tests are rendered here by the equivalent exact
comparisons on `dx`, `dy` (with `atan2(0, 0) = 0`). -/
def calculate_direction (dx dy : ℚ) : String :=
  if (0 < dx ∧ -dx ≤ dy ∧ dy < dx) ∨ (dx = 0 ∧ dy = 0) then "right"
  else if 0 < dy ∧ -dy < dx ∧ dx ≤ dy then "down"
  else if dx < 0 ∧ ((0 ≤ dy ∧ dy ≤ -dx) ∨ (dy < 0 ∧ dx < dy)) then "left"
  else "up"

/-- The loop of `extract_movements`: one previous center per object type
(`previous_objects` dict), a movement emitted when the displacement `d`
satisfies `20 < d < 300`, i.e. `400 < d^2 < 90000`. -/
def movementsLoop (prev : List (String × ℚ × ℚ)) : List ObjectDetection → List Movement
  | [] => []
  | d :: rest =>
    let cx := centerX d
    let cy := centerY d
    let emitted : List Movement :=
      match dictFind prev d.object_type with
      | none => []
      | some (px, py) =>
        let dsq := (cx - px) ^ 2 + (cy - py) ^ 2
        if 400 < dsq ∧ dsq < 90000 then
          [{ object_type := d.object_type
             dist2 := dsq
             direction := calculate_direction (cx - px) (cy - py)
             speed2 := dsq / 4
             timestamp := d.timestamp
             startX := px, startY := py, endX := cx, endY := cy }]
        else []
    emitted ++ movementsLoop ((d.object_type, cx, cy) :: prev) rest

/-- The `extract_movements` (`video_processor.py` lines 154-190). -/
def extract_movements (dets : List ObjectDetection) : List Movement :=
  movementsLoop [] dets

/-- The squared displacement between the centers of two detections. -/
def dispSq (d1 d2 : ObjectDetection) : ℚ :=
  (centerX d2 - centerX d1) ^ 2 + (centerY d2 - centerY d1) ^ 2

/-! ### Zones (`VideoProcessor.define_zones`, `extract_zone_interactions`) -/

/-- One entry of the `zones` list: name and proportional bounds. -/
structure Zone where
  name : String
  zx : ℚ
  zy : ℚ
  zw : ℚ
  zh : ℚ
deriving DecidableEq, Repr

/-- The `define_zones` (`video_processor.py` lines 206-217); the source wraps
the list in a one-key dict, modelled by the list itself.  `0.3`, `0.4`,
`0.7`, `0.1`, `0.2`, `0.8` are exact decimals. -/
def define_zones (width height : ℚ) : List Zone :=
  [ { name := "top",       zx := 0,                zy := 0,                 zw := width,            zh := height * (3/10) },
    { name := "middle",    zx := 0,                zy := height * (3/10),   zw := width,            zh := height * (4/10) },
    { name := "bottom",    zx := 0,                zy := height * (7/10),   zw := width,            zh := height * (3/10) },
    { name := "left",      zx := 0,                zy := 0,                 zw := width * (3/10),   zh := height },
    { name := "center",    zx := width * (3/10),   zy := 0,                 zw := width * (4/10),   zh := height },
    { name := "right",     zx := width * (7/10),   zy := 0,                 zw := width * (3/10),   zh := height },
    { name := "door_area", zx := width * (4/10),   zy := height * (1/10),   zw := width * (2/10),   zh := height * (8/10) } ]

/-- The `ZoneInteraction` of `schemas.py`. -/
structure ZoneInteraction where
  object_type : String
  zone_name : String
  timestamp : ℚ
  confidence : ℚ
  object_id : String
deriving DecidableEq, Repr

/-- The `extract_zone_interactions` (`video_processor.py` lines 219-240): the
center of each detection is tested, inclusively on all four sides, against
every zone. -/
def extract_zone_interactions (dets : List ObjectDetection) (zones : List Zone) :
    List ZoneInteraction :=
  (dets.map (fun d =>
    let cx := d.bboxX + d.bboxW / 2
    let cy := d.bboxY + d.bboxH / 2
    zones.filterMap (fun z =>
      if z.zx ≤ cx ∧ cx ≤ z.zx + z.zw ∧ z.zy ≤ cy ∧ cy ≤ z.zy + z.zh then
        some { object_type := d.object_type, zone_name := z.name,
               timestamp := d.timestamp, confidence := d.confidence,
               object_id := d.object_id }
      else none))).flatten

/-! ### Person attributes (`VideoProcessor.extract_person_attributes`) -/

/-- The `PersonAttribute` of `schemas.py`. -/
structure PersonAttribute where
  object_id : String
  estimated_gender : Option String
  estimated_age : Option String
  size_category : String
  position : String
  timestamp : ℚ
deriving DecidableEq, Repr

/-- The `extract_person_attributes` (`video_processor.py` lines 242-264). -/
def extract_person_attributes (dets : List ObjectDetection) : List PersonAttribute :=
  dets.filterMap (fun d =>
    if d.object_type = "person" then
      let center_y : ℚ := d.bboxY + d.bboxH / 2
      some { object_id := d.object_id
             estimated_gender := some (if (2/5 : ℚ) < d.aspectRatioVal then "likely_male" else "likely_female")
             estimated_age := some (if (8000 : ℚ) < d.size then "adult" else "child")
             size_category := if (10000 : ℚ) < d.size then "large" else if (5000 : ℚ) < d.size then "medium" else "small"
             position := if center_y < 200 then "top" else if 400 < center_y then "bottom" else "center"
             timestamp := d.timestamp }
    else none)

/-! ### Temporal aggregation (`VideoProcessor.extract_temporal_data`) -/

/-- The `TemporalData` of `schemas.py`. -/
structure TemporalData where
  timestamp : ℚ
  total_objects : ℕ
  object_types : List String
  avg_confidence : ℚ
  total_movements : ℕ
  active_zones : List String
deriving DecidableEq, Repr

/-- The `sorted(set(xs))` on timestamps: deduplicate, then sort ascending. -/
def pySortedSet (l : List ℚ) : List ℚ :=
  List.insertionSort (· ≤ ·) l.dedup

/-- The record built for one distinct timestamp
(`video_processor.py` lines 271-286).  `list(set(...))` on the object
types is modelled by `dedup` (the Python set iteration order is
unspecified). -/
def temporalRecordAt (dets : List ObjectDetection) (movs : List Movement) (t : ℚ) :
    TemporalData :=
  let fd := dets.filter (fun d => decide (d.timestamp = t))
  let fm := movs.filter (fun m => decide (m.timestamp = t))
  { timestamp := t
    total_objects := fd.length
    object_types := (fd.map (fun d => d.object_type)).dedup
    avg_confidence := if fd.length = 0 then 0 else (fd.map (fun d => d.confidence)).sum / fd.length
    total_movements := fm.length
    active_zones := [] }

/-- The `extract_temporal_data` (`video_processor.py` lines 266-288). -/
def extract_temporal_data (dets : List ObjectDetection) (movs : List Movement) :
    List TemporalData :=
  (pySortedSet (dets.map (fun d => d.timestamp))).map (temporalRecordAt dets movs)

/-! ### Query responder (`main.py query_video`, lines 232-291) -/

/-- ASCII lowercasing, as `str.lower()` acts on the query strings involved. -/
def pyCharLower (c : Char) : Char :=
  if 65 ≤ c.toNat ∧ c.toNat ≤ 90 then Char.ofNat (c.toNat + 32) else c

/-- The `query.lower()`. -/
def pyLower (s : String) : String := String.mk (s.data.map pyCharLower)

/-- Is `pat` a prefix of `l`? -/
def charsHavePre : List Char → List Char → Bool
  | [], _ => true
  | _ :: _, [] => false
  | a :: ps, b :: ls => a = b && charsHavePre ps ls

/-- Does `l` contain `pat` as a contiguous sublist? -/
def charsHaveSub (pat : List Char) : List Char → Bool
  | [] => charsHavePre pat []
  | l@(_ :: rest) => charsHavePre pat l || charsHaveSub pat rest

/-- Python `pat in s` on strings. -/
def strContains (s pat : String) : Bool := charsHaveSub pat.data s.data

/-- The `QueryResponse` of `schemas.py` (`sources` is always the empty list in
`query_video`). -/
structure QueryResponse where
  answer : String
  confidence : ℚ
  sources : List String
deriving DecidableEq, Repr

/-- The slice of a completed job result that `query_video` reads. -/
structure QueryResult where
  unique_people : ℕ
  detections : List ObjectDetection
  attributes : List PersonAttribute
  movements : List Movement
  peak_timestamp : ℚ
  peak_count : ℕ
  zone_interactions : List ZoneInteraction
deriving Repr

/-- The gender tally of the `male`/`female` branch
(`main.py` lines 256-260): counts per `estimated_gender` value, in first
occurrence order. -/
def genderCounts (attrs : List PersonAttribute) : List (String × ℕ) :=
  attrs.foldl (fun acc a =>
    match a.estimated_gender with
    | none => acc
    | some g =>
      if acc.any (fun p => p.1 = g) then
        acc.map (fun p => if p.1 = g then (p.1, p.2 + 1) else p)
      else acc ++ [(g, 1)]) []

/-- Rendering of the gender tally into the answer text.  The Python code
interpolates the `repr` of a dict; only the fact that this branch is taken
with confidence 60.0 matters to the theorems, so the rendering is
simplified to a comma-separated list. -/
def renderGenderData (attrs : List PersonAttribute) : String :=
  String.intercalate ", " ((genderCounts attrs).map (fun p => p.1 ++ ": " ++ toString p.2))

/-- The direction tally of the movement branch (`main.py` lines 269-272). -/
def directionCounts (movs : List Movement) : List (String × ℕ) :=
  movs.foldl (fun acc m =>
    if acc.any (fun p => p.1 = m.direction) then
      acc.map (fun p => if p.1 = m.direction then (p.1, p.2 + 1) else p)
    else acc ++ [(m.direction, 1)]) []

/-- Rendering of the direction tally (same simplification as
`renderGenderData`). -/
def renderDirections (movs : List Movement) : String :=
  String.intercalate ", " ((directionCounts movs).map (fun p => p.1 ++ ": " ++ toString p.2))

/-- The keyword dispatch of `query_video` (`main.py` lines 242-291), as a
pure function of the lowered query and the completed job result. -/
def answer_query (q : String) (res : QueryResult) : QueryResponse :=
  let query := pyLower q
  let defaultAnswer : QueryResponse :=
    { answer := "I couldn\x27t find specific information about that query."
      confidence := 0, sources := [] }
  if strContains query "people" || strContains query "person" then
    let total_detections := (res.detections.filter (fun d => decide (d.object_type = "person"))).length
    if strContains query "count" || strContains query "how many" then
      { answer := "I detected " ++ toString res.unique_people ++
          " unique people in the video. There were " ++ toString total_detections ++
          " total person detections across all frames."
        confidence := 85, sources := [] }
    else if strContains query "male" || strContains query "female" then
      { answer := "Based on visual analysis: " ++ renderGenderData res.attributes
        confidence := 60, sources := [] }
    else defaultAnswer
  else if strContains query "movement" || strContains query "moving" then
    { answer := "I tracked " ++ toString res.movements.length ++
        " movements. Direction breakdown: " ++ renderDirections res.movements
      confidence := 80, sources := [] }
  else if strContains query "peak" || strContains query "most active" then
    { answer := "Peak activity occurred at " ++ toString res.peak_timestamp ++
        "s with " ++ toString res.peak_count ++ " objects detected."
      confidence := 90, sources := [] }
  else if strContains query "door" || strContains query "zone" then
    { answer := "There were " ++
        toString ((res.zone_interactions.filter (fun zi => decide (zi.zone_name = "door_area"))).length) ++
        " interactions in the door area."
      confidence := 75, sources := [] }
  else defaultAnswer

/-! ### Job lifecycle (`main.py`) -/

/-- The `ProcessingStatus` of `schemas.py`. -/
inductive ProcessingStatus where
  | uploaded
  | processing
  | completed
  | failed
deriving DecidableEq, Repr

/-- The `VideoMetadata` of `schemas.py` (the numeric fields the pipeline
reads). -/
structure VideoMetadata where
  duration : ℚ
  width : ℤ
  height : ℤ
  frame_rate : ℚ
  size : ℕ
deriving DecidableEq, Repr

/-- The aggregate result dict assembled by `process_video_background`
(`main.py` lines 167-188), restricted to the scalar summary fields; it is
built only after every pipeline stage has succeeded. -/
structure ResultBundle where
  total_frames : ℕ
  objects_detected : ℕ
  movements_tracked : ℕ
  zone_interactions_count : ℕ
  attribute_data : ℕ
  unique_people : ℕ
  peak_timestamp : ℚ
  peak_count : ℕ
deriving DecidableEq, Repr

/-- The in-memory job record of `main.py` (the `jobs` dict entry for one
job id). -/
structure Job where
  status : ProcessingStatus
  progress : ℕ
  message : Option String
  error : Option String
  result : Option ResultBundle
deriving DecidableEq, Repr

/-- Events emitted to the per-job room. -/
inductive Event where
  | update (progress : ℕ) (msg : String)
  | complete
  | errorEv (msg : String)
deriving DecidableEq, Repr

/-- Is the event a `processing_error` emission? -/
def Event.isError : Event → Bool
  | .errorEv _ => true
  | _ => false

/-- The outcomes of the awaited calls inside `process_video_background`;
each of them may raise, which the embedding records as an `Except` value
supplied by the environment (filesystem, OpenCV, scheduler). -/
structure PipelineEnv where
  metadata : Except String VideoMetadata
  framePaths : Except String (List String)
  detections : Except String (List ObjectDetection)
  movements : Except String (List Movement)
  zones : Except String (List Zone)
  zoneInteractions : Except String (List ZoneInteraction)
  attributes : Except String (List PersonAttribute)
  temporalData : Except String (List TemporalData)
  cleanup : Except String Unit

/-- The `max(temporal_data, key=lambda x: x.total_objects)`: the first element
of maximal `total_objects` (Python `max` keeps the earliest maximum). -/
def peakActivity (td : List TemporalData) : Option TemporalData :=
  match td with
  | [] => none
  | t :: rest => some (rest.foldl (fun best x =>
      if best.total_objects < x.total_objects then x else best) t)

/-- The result bundle of a fully successful run (`main.py` lines 164-188):
`people_count = len(set(object_id of person detections))` and the peak
activity entry (`0` fields when there is no temporal data). -/
def mkBundle (framePaths : List String) (dets : List ObjectDetection)
    (movs : List Movement) (zis : List ZoneInteraction)
    (attrs : List PersonAttribute) (td : List TemporalData) : ResultBundle :=
  let peak := peakActivity td
  { total_frames := framePaths.length
    objects_detected := dets.length
    movements_tracked := movs.length
    zone_interactions_count := zis.length
    attribute_data := attrs.length
    unique_people := ((dets.filter (fun d => decide (d.object_type = "person"))).map
      (fun d => d.object_id)).dedup.length
    peak_timestamp := match peak with | some p => p.timestamp | none => 0
    peak_count := match peak with | some p => p.total_objects | none => 0 }

/-- The value computation of the pipeline: the stages in source order,
stopping at the first raised exception. -/
def runPipeline (env : PipelineEnv) : Except String ResultBundle := do
  let _ ← env.metadata
  let fps ← env.framePaths
  let dets ← env.detections
  let movs ← env.movements
  let _ ← env.zones
  let zis ← env.zoneInteractions
  let attrs ← env.attributes
  let td ← env.temporalData
  pure (mkBundle fps dets movs zis attrs td)

/-- The progress checkpoints of `process_video_background` paired with the
outcome of the stage (or stages) run right after each checkpoint; the
`70%` checkpoint covers both `define_zones` and
`extract_zone_interactions`. -/
def stages (env : PipelineEnv) : List (ℕ × String × Except String Unit) :=
  [ (10, "Getting video metadata...", env.metadata.map (fun _ => ())),
    (20, "Extracting frames...", env.framePaths.map (fun _ => ())),
    (40, "Detecting objects...", env.detections.map (fun _ => ())),
    (60, "Analyzing movements...", env.movements.map (fun _ => ())),
    (70, "Processing zones...",
      (env.zones.bind (fun _ => env.zoneInteractions)).map (fun _ => ())),
    (80, "Extracting attributes...", env.attributes.map (fun _ => ())),
    (90, "Creating temporal analysis...", env.temporalData.map (fun _ => ())) ]

/-- Walk the checkpoints: each iteration performs `update_job_progress`
(progress and message write plus a `processing_update` emission) and then
runs the stage; on the first exception the handler of `main.py` lines
199-204 fires (status `failed`, `error = str(e)`, `processing_error`
emission) and the run ends.  Returns the final job, the successive
observable job states, the emitted events, and the first error. -/
def runStages (j : Job) : List (ℕ × String × Except String Unit) →
    Job × List Job × List Event × Option String
  | [] => (j, [], [], none)
  | (p, msg, st) :: rest =>
    let j1 : Job := { j with progress := p, message := some msg }
    match st with
    | .error e =>
      let jf : Job := { j1 with status := .failed, error := some e }
      (jf, [j1, jf], [Event.update p msg, Event.errorEv e], some e)
    | .ok _ =>
      let r := runStages j1 rest
      (r.1, j1 :: r.2.1, Event.update p msg :: r.2.2.1, r.2.2.2)

/-- The `process_video_background` (`main.py` lines 131-204) as a trace of the
observable job states (the states at `await` boundaries) and emitted
events.  After a fully successful pipeline the job is completed (result
stored, progress 100), a `processing_complete` event is emitted, and
`cleanup_temp_files` runs; the `try` block still covers those lines, so an
exception raised there reaches the same handler and turns the completed
job into a failed one. -/
def process_video_background (env : PipelineEnv) (j0 : Job) : List Job × List Event :=
  let r := runStages j0 (stages env)
  match r.2.2.2 with
  | some _ => (r.2.1, r.2.2.1)
  | none =>
    match runPipeline env with
    | .error e =>
      let jf : Job := { r.1 with status := .failed, error := some e }
      (r.2.1 ++ [jf], r.2.2.1 ++ [Event.errorEv e])
    | .ok b =>
      let jc : Job :=
        { r.1 with
          status := .completed
          progress := 100
          message := some "Processing completed successfully"
          result := some b }
      match env.cleanup with
      | .ok _ => (r.2.1 ++ [jc], r.2.2.1 ++ [Event.complete])
      | .error e =>
        let jf : Job := { jc with status := .failed, error := some e }
        (r.2.1 ++ [jc, jf], r.2.2.1 ++ [Event.complete, Event.errorEv e])

/-- The job state left behind by a background run: the last entry of its
observable state trace. -/
def finalJob (env : PipelineEnv) (j0 : Job) : Job :=
  ((process_video_background env j0).1).getLastD j0

/-- The `start_processing` (`main.py` lines 115-129): rejects with HTTP 400
unless the job status is `uploaded`, otherwise schedules the background
task and sets the status to `processing`. -/
def start_processing (j : Job) : Except String Job :=
  if j.status = ProcessingStatus.uploaded then
    Except.ok { j with status := ProcessingStatus.processing }
  else Except.error "Job not ready for processing"

/-- Forward rank of the status order `uploaded -> processing -> terminal`. -/
def statusRank : ProcessingStatus → ℕ
  | .uploaded => 0
  | .processing => 1
  | .completed => 2
  | .failed => 2

/-- Does the status move forward (or stay) in rank? -/
def rankMove (a b : ProcessingStatus) : Bool := statusRank a ≤ statusRank b

/-- Boolean check that every adjacent pair of a list satisfies `p`. -/
def adjacentOK (p : α → α → Bool) : List α → Bool
  | [] => true
  | [_] => true
  | a :: b :: rest => p a b && adjacentOK p (b :: rest)

/-- The status moves the claim allows a background run: stay put, or go
from `processing` to a terminal status. -/
def claimedMove (a b : ProcessingStatus) : Bool :=
  a = b || (a = .processing && (b = .completed || b = .failed))

/-- The status moves the code can actually make during a background run:
additionally `completed -> failed`, when the post-completion emission or
cleanup raises. -/
def actualMove (a b : ProcessingStatus) : Bool :=
  claimedMove a b || (a = .completed && b = .failed)

/-- The first exception observed by the handler, if any: the first failing
pipeline stage, or else a cleanup failure. -/
def firstError (env : PipelineEnv) : Option String :=
  match runPipeline env with
  | .error e => some e
  | .ok _ =>
    match env.cleanup with
    | .error e => some e
    | .ok _ => none

/-! ### Concrete inputs used by witnesses and counterexamples -/

/-- A contour rectangle of area `6000`. -/
def rect6000 : Rect := { x := 0, y := 0, w := 100, h := 60 }

/-- A job that `start_processing` has just moved to `processing`. -/
def processingJob : Job :=
  { status := .processing, progress := 0, message := none, error := none, result := none }

/-- A freshly uploaded job. -/
def uploadedJob : Job :=
  { status := .uploaded, progress := 0, message := none, error := none, result := none }

/-- An environment in which every pipeline stage succeeds (on an empty
video) and so does the final cleanup. -/
def envAllOk : PipelineEnv :=
  { metadata := Except.ok { duration := 0, width := 640, height := 480, frame_rate := 30, size := 0 }
    framePaths := Except.ok []
    detections := Except.ok []
    movements := Except.ok []
    zones := Except.ok (define_zones 640 480)
    zoneInteractions := Except.ok []
    attributes := Except.ok []
    temporalData := Except.ok []
    cleanup := Except.ok () }

/-- Same environment, except that `cleanup_temp_files` raises after the
job has already been marked completed. -/
def envCleanupFails : PipelineEnv :=
  { envAllOk with cleanup := Except.error "Permission denied" }

/-- An environment in which the very first stage
(`get_video_metadata`) raises. -/
def envMetadataFails : PipelineEnv :=
  { envAllOk with metadata := Except.error "Could not open video file" }

/-- An empty completed-job result slice. -/
def emptyQueryResult : QueryResult :=
  { unique_people := 0, detections := [], attributes := [], movements := [],
    peak_timestamp := 0, peak_count := 0, zone_interactions := [] }

/-- A result slice recording three unique people. -/
def threePeopleResult : QueryResult :=
  { emptyQueryResult with unique_people := 3 }

/-- A detection of the given type whose center is the given point (zero
extents, so the center equals the corner). -/
def detAt (t : String) (cx cy : ℚ) : ObjectDetection :=
  { object_id := "w", object_type := t, confidence := 9/10,
    bboxX := cx, bboxY := cy, bboxW := 0, bboxH := 0,
    frame_number := 1, timestamp := 0, size := 0, aspectRatioVal := 1 }

/-! ### Helper lemmas -/

theorem charsHavePre_refl_append (p t : List Char) : charsHavePre p (p ++ t) = true := by
  induction p with
  | nil => rfl
  | cons a ps ih => simp [charsHavePre, ih]

theorem charsHaveSub_here (p t : List Char) : charsHaveSub p (p ++ t) = true := by
  cases p with
  | nil => cases t <;> simp [charsHaveSub, charsHavePre]
  | cons a ps =>
    simp only [List.cons_append, charsHaveSub, Bool.or_eq_true]
    exact Or.inl (charsHavePre_refl_append (a :: ps) t)

theorem charsHaveSub_cons (pat : List Char) (c : Char) (l : List Char)
    (h : charsHaveSub pat l = true) : charsHaveSub pat (c :: l) = true := by
  simp [charsHaveSub, h]

theorem charsHaveSub_append_left (pat l₁ l₂ : List Char)
    (h : charsHaveSub pat l₂ = true) : charsHaveSub pat (l₁ ++ l₂) = true := by
  induction l₁ with
  | nil => simpa using h
  | cons c l ih => simpa using charsHaveSub_cons pat c (l ++ l₂) ih

theorem strContains_mid (a pat b : String) : strContains (a ++ (pat ++ b)) pat = true := by
  unfold strContains
  rw [String.data_append, String.data_append]
  exact charsHaveSub_append_left _ _ _ (charsHaveSub_here _ _)

/-! ### Claim theorems -/

/-- C10: for every completed job, a query containing `people` or `person`
but none of `count`, `how many`, `male`, `female` falls through the inner
branches of the people arm of `query_video` and returns the fixed default
answer with confidence exactly `0.0`; the `elif` chain means the other
arms are not consulted. -/
theorem c10_people_query_falls_through (q : String) (res : QueryResult)
    (hp : strContains (pyLower q) "people" = true ∨ strContains (pyLower q) "person" = true)
    (h1 : strContains (pyLower q) "count" = false)
    (h2 : strContains (pyLower q) "how many" = false)
    (h3 : strContains (pyLower q) "male" = false)
    (h4 : strContains (pyLower q) "female" = false) :
    answer_query q res =
      { answer := "I couldn\x27t find specific information about that query."
        confidence := 0, sources := [] } := by
  rcases hp with hp | hp <;> simp [answer_query, hp, h1, h2, h3, h4]

/-- Witness for C10 at the concrete query `"person"`. -/
theorem c10_people_query_falls_through_witness :
    answer_query "person" emptyQueryResult =
      { answer := "I couldn\x27t find specific information about that query."
        confidence := 0, sources := [] } :=
  c10_people_query_falls_through "person" emptyQueryResult (Or.inr (by decide))
    (by decide) (by decide) (by decide) (by decide)

/-- C7: for every completed job whose result records `3` unique people,
the query `how many people` takes the people/count branch of
`query_video`: confidence exactly `85.0` and an answer text containing
`3`. -/
theorem c7_how_many_people (res : QueryResult) (h : res.unique_people = 3) :
    (answer_query "how many people" res).confidence = 85
    ∧ strContains (answer_query "how many people" res).answer "3" = true := by
  have hq : pyLower "how many people" = "how many people" := by decide
  constructor
  · simp [answer_query, hq, show strContains "how many people" "people" = true from by decide,
      show strContains "how many people" "count" = false from by decide,
      show strContains "how many people" "how many" = true from by decide]
  · simp only [answer_query, hq, show strContains "how many people" "people" = true from by decide,
      show strContains "how many people" "count" = false from by decide,
      show strContains "how many people" "how many" = true from by decide,
      Bool.true_or, Bool.false_or, if_true]
    rw [h]
    show strContains ("I detected " ++ "3" ++ _ ++ _ ++ _) "3" = true
    unfold strContains
    simp only [String.data_append, List.append_assoc]
    exact charsHaveSub_append_left _ _ _ (charsHaveSub_here _ _)

/-- Witness for C7 at a concrete result with three unique people. -/
theorem c7_how_many_people_witness :
    (answer_query "how many people" threePeopleResult).confidence = 85
    ∧ strContains (answer_query "how many people" threePeopleResult).answer "3" = true :=
  c7_how_many_people threePeopleResult (by decide)

/-- C3: over the first ten contours, `detect_objects_simple` emits a
prediction exactly for those of bounding-rectangle area `> 1000`;
every prediction carries `confidence = min(0.5 + area/10000, 0.95)`,
class `person` when `area > 5000`, class `car` exactly when `w > h` and
`2000 < area <= 5000`, class `object` when `1000 < area <= 2000`; any
contour of area `6000` classifies as `person` with confidence exactly
`0.95`. -/
theorem c3_detector_classification (contours : List Rect) :
    (∀ p ∈ detect_objects_simple contours,
        ∃ r, r ∈ contours.take 10 ∧ 1000 < r.w * r.h ∧ p = predOf r)
    ∧ (∀ r ∈ contours.take 10, 1000 < r.w * r.h →
        predOf r ∈ detect_objects_simple contours)
    ∧ (∀ r : Rect,
        (predOf r).score = min (1/2 + ((r.w * r.h : ℕ) : ℚ) / 10000) (19/20)
        ∧ (5000 < r.w * r.h → (predOf r).cls = "person")
        ∧ ((predOf r).cls = "car" ↔ r.h < r.w ∧ 2000 < r.w * r.h ∧ r.w * r.h ≤ 5000)
        ∧ (1000 < r.w * r.h → r.w * r.h ≤ 2000 → (predOf r).cls = "object"))
    ∧ (∀ r : Rect, r.w * r.h = 6000 →
        (predOf r).cls = "person" ∧ (predOf r).score = 19/20) := by
  refine ⟨?_, ?_, ?_, ?_⟩
  · intro p hp
    rcases List.mem_filterMap.mp hp with ⟨r, hr, he⟩
    by_cases h : 1000 < r.w * r.h
    · rw [if_pos h] at he
      exact ⟨r, hr, h, (Option.some.inj he).symm⟩
    · rw [if_neg h] at he
      exact Option.noConfusion he
  · intro r hr h
    exact List.mem_filterMap.mpr ⟨r, hr, by rw [if_pos h]⟩
  · intro r
    refine ⟨rfl, ?_, ?_, ?_⟩
    · intro h
      simp [predOf, h]
    · unfold predOf
      simp only
      split_ifs with h1 h2 h3 <;> simp_all
    · intro h1 h2
      simp [predOf, show ¬ 5000 < r.w * r.h by omega, show ¬ 2000 < r.w * r.h by omega]
  · intro r h
    constructor
    · simp [predOf, h]
    · simp only [predOf, h]
      norm_num [min_def]

/-- Witness for C3 at the single contour of area `6000`. -/
theorem c3_detector_classification_witness :
    predOf rect6000 ∈ detect_objects_simple [rect6000]
    ∧ (predOf rect6000).cls = "person" ∧ (predOf rect6000).score = 19/20 :=
  ⟨(c3_detector_classification [rect6000]).2.1 rect6000 (by simp) (by decide),
   (c3_detector_classification [rect6000]).2.2.2 rect6000 (by decide)⟩

theorem detFrameLoop_length (jid : String) (i : ℕ) :
    ∀ (preds : List Pred) (j : ℕ), (∀ p ∈ preds, 1/2 < p.score) →
      (detFrameLoop jid i j preds).length = preds.length := by
  intro preds
  induction preds with
  | nil => intro j _; rfl
  | cons p rest ih =>
    intro j h
    have hp : 1/2 < p.score := h p (List.mem_cons_self p rest)
    simp only [detFrameLoop, if_pos hp, List.singleton_append, List.length_cons]
    rw [ih (j + 1) (fun q hq => h q (List.mem_cons_of_mem p hq))]

/-- C9: every prediction of `detect_objects_simple` has
`0.6 < score <= 0.95` (the area is at least `1001`, so
`0.5 + area/10000 >= 0.6001`), hence the `score > 0.5` filter in
`detect_objects_in_frames` discards nothing: one `ObjectDetection` per
prediction per frame. -/
theorem c9_score_filter_keeps_all :
    (∀ (contours : List Rect), ∀ p ∈ detect_objects_simple contours,
        3/5 < p.score ∧ p.score ≤ 19/20)
    ∧ (∀ (frames : List (List Rect)) (jid : String),
        (detect_objects_in_frames frames jid).length
          = ((frames.map (fun f => (detect_objects_simple f).length)).sum)) := by
  have hscore : ∀ (contours : List Rect), ∀ p ∈ detect_objects_simple contours,
      3/5 < p.score ∧ p.score ≤ 19/20 := by
    intro contours p hp
    rcases List.mem_filterMap.mp hp with ⟨r, _, he⟩
    by_cases h : 1000 < r.w * r.h
    · rw [if_pos h] at he
      cases Option.some.inj he
      have ha : (1001 : ℚ) ≤ ((r.w * r.h : ℕ) : ℚ) := by exact_mod_cast h
      constructor
      · exact lt_min (by linarith) (by norm_num)
      · exact min_le_right _ _
    · rw [if_neg h] at he
      exact Option.noConfusion he
  refine ⟨hscore, ?_⟩
  intro frames jid
  unfold detect_objects_in_frames
  suffices h : ∀ (fs : List (List Rect)) (i : ℕ),
      (framesLoop jid i fs).length = (fs.map (fun f => (detect_objects_simple f).length)).sum by
    exact h frames 0
  intro fs
  induction fs with
  | nil => intro i; rfl
  | cons f rest ih =>
    intro i
    have hf : (detFrameLoop jid i 0 (detect_objects_simple f)).length
        = (detect_objects_simple f).length :=
      detFrameLoop_length jid i (detect_objects_simple f) 0
        (fun p hp => lt_trans (by norm_num) (hscore f p hp).1)
    simp [framesLoop, hf, ih]

/-- Witness for C9 at the single contour of area `6000`. -/
theorem c9_score_filter_keeps_all_witness :
    3/5 < (predOf rect6000).score ∧ (predOf rect6000).score ≤ 19/20 :=
  c9_score_filter_keeps_all.1 [rect6000] (predOf rect6000)
    (by norm_num [detect_objects_simple, rect6000])

theorem frame_interval_thirty : frame_interval (30 : ℚ) = 60 := by
  unfold frame_interval
  rw [if_pos (by norm_num : (0:ℚ) < 30)]
  rw [show (30 : ℚ) / (1/2) = ((60 : ℤ) : ℚ) from by norm_num, Int.floor_intCast]
  rfl

theorem frame_interval_two_fifths : frame_interval ((2 : ℚ)/5) = 0 := by
  unfold frame_interval
  rw [if_pos (by norm_num : (0:ℚ) < 2/5)]
  have h : ((2 : ℚ)/5) / (1/2) = 4/5 := by norm_num
  rw [h, show ⌊(4 : ℚ)/5⌋ = 0 from by
    rw [Int.floor_eq_zero_iff]
    constructor <;> norm_num]
  rfl

theorem extractLoop_eq_kept (N : ℕ) (hN : N ≠ 0) :
    ∀ (k : ℕ) (fs : List α), extractLoop N k fs = Except.ok (keptFrames N k fs) := by
  intro k fs
  induction fs generalizing k with
  | nil => rfl
  | cons f rest ih =>
    simp only [extractLoop, keptFrames, hN, if_false, ih (k + 1), Except.map]

/-- C4 (amended): whenever the computed interval
`N = int(fps / 0.5) if fps > 0 else 30` is nonzero, the sampler succeeds
and keeps exactly the frames at indices `k` with `k % N == 0`, in capture
order; `N = 60` for `fps = 30`; and `N = 30` when the source frame rate
is not positive.  (When `0 < fps < 0.5` the interval is `0`, a case the
original claim covers but the code does not survive; see the
counterexample.) -/
theorem c4_frame_sampling (fps : ℚ) (frames : List α) :
    (frame_interval fps ≠ 0 →
      extract_frames fps frames = Except.ok (keptFrames (frame_interval fps) 0 frames))
    ∧ (frame_interval fps = 0 → frames ≠ [] →
      extract_frames fps frames = Except.error "integer division or modulo by zero")
    ∧ frame_interval (30 : ℚ) = 60
    ∧ (∀ g : ℚ, ¬ 0 < g → frame_interval g = 30) := by
  refine ⟨?_, ?_, frame_interval_thirty, ?_⟩
  · intro hN
    exact extractLoop_eq_kept (frame_interval fps) hN 0 frames
  · intro hN hne
    cases frames with
    | nil => exact absurd rfl hne
    | cons f rest =>
      unfold extract_frames extractLoop
      rw [if_pos hN]
  · intro g hg
    simp [frame_interval, hg]

/-- Witness for C4 at `fps = 30` on `61` frames: the kept indices are
`0` and `60`. -/
theorem c4_frame_sampling_witness :
    extract_frames (30 : ℚ) (List.range 61)
      = Except.ok (keptFrames (frame_interval (30 : ℚ)) 0 (List.range 61)) :=
  (c4_frame_sampling (30 : ℚ) (List.range 61)).1 (by rw [frame_interval_thirty]; decide)

/-- C4 counterexample: at `fps = 0.4 > 0` the claimed interval
`N = floor(0.4 / 0.5)` is `0`, and on a one-frame video the sampler does
not return the claimed kept-frame list at all: the `%` by zero raises,
so `extract_frames` yields an error instead of a list. -/
theorem c4_counterexample :
    frame_interval ((2 : ℚ)/5) = 0
    ∧ (0 : ℚ) < 2/5
    ∧ extract_frames ((2 : ℚ)/5) ([0] : List ℕ)
        = Except.error "integer division or modulo by zero" := by
  refine ⟨frame_interval_two_fifths, by norm_num, ?_⟩
  unfold extract_frames extractLoop
  rw [if_pos frame_interval_two_fifths]

theorem sqrt_band (x : ℚ) :
    ((20 : ℝ) < Real.sqrt (x : ℝ) ∧ Real.sqrt (x : ℝ) < 300) ↔ (400 < x ∧ x < 90000) := by
  have h1 : (20 : ℝ) < Real.sqrt (x : ℝ) ↔ (400 : ℝ) < (x : ℝ) := by
    rw [Real.lt_sqrt (by norm_num : (0:ℝ) ≤ 20)]
    norm_num
  have h2 : Real.sqrt (x : ℝ) < 300 ↔ (x : ℝ) < 90000 := by
    rw [Real.sqrt_lt' (by norm_num : (0:ℝ) < 300)]
    norm_num
  rw [h1, h2]
  constructor
  · rintro ⟨a, b⟩
    exact ⟨by exact_mod_cast a, by exact_mod_cast b⟩
  · rintro ⟨a, b⟩
    exact ⟨by exact_mod_cast a, by exact_mod_cast b⟩

theorem sqrt_quarter (x : ℚ) (hx : 0 ≤ x) :
    Real.sqrt ((x/4 : ℚ) : ℝ) = Real.sqrt (x : ℝ) / 2 := by
  have he : ((x/4 : ℚ) : ℝ) = (x : ℝ) / 4 := by push_cast; ring
  rw [he, Real.sqrt_div (by exact_mod_cast hx) 4,
    show (4 : ℝ) = 2 ^ 2 from by norm_num, Real.sqrt_sq (by norm_num : (0:ℝ) ≤ 2)]

/-- C5: for a pair of consecutive detections of the same object type,
`extract_movements` emits a movement exactly when the Euclidean
displacement `d` satisfies `20 < d < 300` (both bounds excluded); the
emitted movement carries the squared displacement, `speed = d / 2.0`
(carried as `speed2 = dist2 / 4`), and the `atan2` direction; the
displacement `100` from center `(0,0)` to center `(0,100)` is emitted
with direction `down`. -/
theorem c5_movement_band (d1 d2 : ObjectDetection) (h : d2.object_type = d1.object_type) :
    (extract_movements [d1, d2] ≠ [] ↔
      ((20 : ℝ) < Real.sqrt ((dispSq d1 d2 : ℚ) : ℝ)
        ∧ Real.sqrt ((dispSq d1 d2 : ℚ) : ℝ) < 300))
    ∧ (∀ m ∈ extract_movements [d1, d2],
        m.dist2 = dispSq d1 d2
        ∧ m.speed2 = m.dist2 / 4
        ∧ Real.sqrt ((m.speed2 : ℚ) : ℝ) = Real.sqrt ((m.dist2 : ℚ) : ℝ) / 2
        ∧ m.direction = calculate_direction (centerX d2 - centerX d1) (centerY d2 - centerY d1))
    ∧ (centerX d1 = 0 → centerY d1 = 0 → centerX d2 = 0 → centerY d2 = 100 →
        (extract_movements [d1, d2]).map (fun m => m.direction) = ["down"]
        ∧ dispSq d1 d2 = 10000
        ∧ Real.sqrt ((dispSq d1 d2 : ℚ) : ℝ) = 100) := by
  have hnn : 0 ≤ dispSq d1 d2 := by
    unfold dispSq
    positivity
  have hcomp : extract_movements [d1, d2] =
      (if 400 < dispSq d1 d2 ∧ dispSq d1 d2 < 90000 then
        [{ object_type := d2.object_type
           dist2 := dispSq d1 d2
           direction := calculate_direction (centerX d2 - centerX d1) (centerY d2 - centerY d1)
           speed2 := dispSq d1 d2 / 4
           timestamp := d2.timestamp
           startX := centerX d1, startY := centerY d1
           endX := centerX d2, endY := centerY d2 }]
      else []) := by
    simp only [extract_movements, movementsLoop, dictFind, if_pos h, List.nil_append,
      List.append_nil, dispSq]
  refine ⟨?_, ?_, ?_⟩
  · rw [hcomp, sqrt_band (dispSq d1 d2)]
    by_cases hc : 400 < dispSq d1 d2 ∧ dispSq d1 d2 < 90000
    · simp [hc]
    · simp [hc]
  · intro m hm
    rw [hcomp] at hm
    by_cases hc : 400 < dispSq d1 d2 ∧ dispSq d1 d2 < 90000
    · rw [if_pos hc] at hm
      rcases List.mem_singleton.mp hm with rfl
      exact ⟨rfl, rfl, sqrt_quarter (dispSq d1 d2) hnn, rfl⟩
    · rw [if_neg hc] at hm
      exact absurd hm (List.not_mem_nil m)
  · intro h1x h1y h2x h2y
    have hd : dispSq d1 d2 = 10000 := by
      unfold dispSq
      rw [h1x, h1y, h2x, h2y]
      norm_num
    have hc : 400 < dispSq d1 d2 ∧ dispSq d1 d2 < 90000 := by
      rw [hd]
      norm_num
    refine ⟨?_, hd, ?_⟩
    · rw [hcomp, if_pos hc, h2x, h1x, h2y, h1y]
      have hdir : calculate_direction 0 100 = "down" := by
        norm_num [calculate_direction]
      simp [hdir]
    · rw [hd, show ((10000 : ℚ) : ℝ) = 100 ^ 2 from by norm_num,
        Real.sqrt_sq (by norm_num : (0:ℝ) ≤ 100)]

/-- Witness for C5: two person detections centered at `(0,0)` and
`(0,100)`. -/
theorem c5_movement_band_witness :
    (extract_movements [detAt "person" 0 0, detAt "person" 0 100]).map (fun m => m.direction)
        = ["down"]
    ∧ dispSq (detAt "person" 0 0) (detAt "person" 0 100) = 10000
    ∧ Real.sqrt ((dispSq (detAt "person" 0 0) (detAt "person" 0 100) : ℚ) : ℝ) = 100 :=
  (c5_movement_band (detAt "person" 0 0) (detAt "person" 0 100) rfl).2.2
    (by norm_num [centerX, detAt]) (by norm_num [centerY, detAt])
    (by norm_num [centerX, detAt]) (by norm_num [centerY, detAt])

/-- C6: for every frame of positive width and height, a detection whose
center is `(0.5*w, 0.5*h)` matches, under the inclusive
point-in-rectangle test of `extract_zone_interactions` applied to all
seven zones of `define_zones`, exactly the zones `middle`, `center` and
`door_area`, producing one interaction per matching zone. -/
theorem c6_center_matches_three_zones (w h : ℚ) (hw : 0 < w) (hh : 0 < h)
    (d : ObjectDetection)
    (hx : d.bboxX + d.bboxW / 2 = w / 2) (hy : d.bboxY + d.bboxH / 2 = h / 2) :
    (extract_zone_interactions [d] (define_zones w h)).map (fun z => z.zone_name)
      = ["middle", "center", "door_area"] := by
  have hTop : ¬ ((0:ℚ) ≤ w/2 ∧ w/2 ≤ 0 + w ∧ (0:ℚ) ≤ h/2 ∧ h/2 ≤ 0 + h * (3/10)) := by
    rintro ⟨-, -, -, hcon⟩
    linarith
  have hMiddle : (0:ℚ) ≤ w/2 ∧ w/2 ≤ 0 + w ∧ h * (3/10) ≤ h/2 ∧ h/2 ≤ h * (3/10) + h * (4/10) :=
    ⟨by linarith, by linarith, by linarith, by linarith⟩
  have hBottom : ¬ ((0:ℚ) ≤ w/2 ∧ w/2 ≤ 0 + w ∧ h * (7/10) ≤ h/2 ∧ h/2 ≤ h * (7/10) + h * (3/10)) := by
    rintro ⟨-, -, hcon, -⟩
    linarith
  have hLeft : ¬ ((0:ℚ) ≤ w/2 ∧ w/2 ≤ 0 + w * (3/10) ∧ (0:ℚ) ≤ h/2 ∧ h/2 ≤ 0 + h) := by
    rintro ⟨-, hcon, -, -⟩
    linarith
  have hCenter : w * (3/10) ≤ w/2 ∧ w/2 ≤ w * (3/10) + w * (4/10) ∧ (0:ℚ) ≤ h/2 ∧ h/2 ≤ 0 + h :=
    ⟨by linarith, by linarith, by linarith, by linarith⟩
  have hRight : ¬ (w * (7/10) ≤ w/2 ∧ w/2 ≤ w * (7/10) + w * (3/10) ∧ (0:ℚ) ≤ h/2 ∧ h/2 ≤ 0 + h) := by
    rintro ⟨hcon, -, -, -⟩
    linarith
  have hDoor : w * (4/10) ≤ w/2 ∧ w/2 ≤ w * (4/10) + w * (2/10)
      ∧ h * (1/10) ≤ h/2 ∧ h/2 ≤ h * (1/10) + h * (8/10) :=
    ⟨by linarith, by linarith, by linarith, by linarith⟩
  simp only [extract_zone_interactions, define_zones, List.map_cons, List.map_nil,
    List.flatten, List.append_nil, hx, hy, List.filterMap_cons, List.filterMap_nil]
  rw [if_neg hTop, if_pos hMiddle, if_neg hBottom, if_neg hLeft, if_pos hCenter,
    if_neg hRight, if_pos hDoor]
  rfl

/-- Witness for C6 on a `100 x 100` frame with a detection centered at
`(50, 50)`. -/
theorem c6_center_matches_three_zones_witness :
    (extract_zone_interactions [detAt "person" 50 50] (define_zones 100 100)).map
        (fun z => z.zone_name)
      = ["middle", "center", "door_area"] :=
  c6_center_matches_three_zones 100 100 (by norm_num) (by norm_num)
    (detAt "person" 50 50) (by norm_num [detAt]) (by norm_num [detAt])

/-- C8: `extract_temporal_data` produces exactly one record per distinct
detection timestamp (its timestamp list is the sorted deduplication of
the detection timestamps, without duplicates and with the same members),
and each record aggregates, over the detections at its timestamp: their
count, their type set, their mean confidence, the count of movements at
that timestamp, and an always-empty `active_zones`. -/
theorem c8_temporal_aggregation (dets : List ObjectDetection) (movs : List Movement) :
    ((extract_temporal_data dets movs).map (fun r => r.timestamp)).Nodup
    ∧ (∀ t : ℚ, t ∈ (extract_temporal_data dets movs).map (fun r => r.timestamp)
        ↔ t ∈ dets.map (fun d => d.timestamp))
    ∧ (∀ r ∈ extract_temporal_data dets movs,
        0 < (dets.filter (fun d => decide (d.timestamp = r.timestamp))).length
        ∧ r.total_objects = (dets.filter (fun d => decide (d.timestamp = r.timestamp))).length
        ∧ r.object_types
            = ((dets.filter (fun d => decide (d.timestamp = r.timestamp))).map
                (fun d => d.object_type)).dedup
        ∧ r.avg_confidence
            = ((dets.filter (fun d => decide (d.timestamp = r.timestamp))).map
                (fun d => d.confidence)).sum
              / ((dets.filter (fun d => decide (d.timestamp = r.timestamp))).length : ℚ)
        ∧ r.total_movements = (movs.filter (fun m => decide (m.timestamp = r.timestamp))).length
        ∧ r.active_zones = []) := by
  have hmap : (extract_temporal_data dets movs).map (fun r => r.timestamp)
      = pySortedSet (dets.map (fun d => d.timestamp)) := by
    unfold extract_temporal_data
    rw [List.map_map]
    have hid : ((fun r : TemporalData => r.timestamp) ∘ temporalRecordAt dets movs) = id :=
      funext (fun t => rfl)
    rw [hid, List.map_id]
  have hperm : (pySortedSet (dets.map (fun d => d.timestamp))).Perm
      ((dets.map (fun d => d.timestamp)).dedup) :=
    List.perm_insertionSort _ _
  have hpos : ∀ t ∈ pySortedSet (dets.map (fun d => d.timestamp)),
      0 < (dets.filter (fun d => decide (d.timestamp = t))).length := by
    intro t ht
    have ht2 : t ∈ dets.map (fun d => d.timestamp) :=
      (List.mem_dedup).mp (hperm.mem_iff.mp ht)
    rcases List.mem_map.mp ht2 with ⟨d, hd, hdt⟩
    have : d ∈ dets.filter (fun d => decide (d.timestamp = t)) :=
      List.mem_filter.mpr ⟨hd, by simp [hdt]⟩
    exact List.length_pos.mpr (List.ne_nil_of_mem this)
  refine ⟨?_, ?_, ?_⟩
  · rw [hmap]
    exact hperm.nodup_iff.mpr (List.nodup_dedup _)
  · intro t
    rw [hmap, hperm.mem_iff, List.mem_dedup]
  · intro r hr
    unfold extract_temporal_data at hr
    rcases List.mem_map.mp hr with ⟨t, ht, rfl⟩
    have hlen := hpos t ht
    refine ⟨hlen, rfl, rfl, ?_, rfl, rfl⟩
    show (if (dets.filter (fun d => decide (d.timestamp = t))).length = 0 then 0
      else ((dets.filter (fun d => decide (d.timestamp = t))).map (fun d => d.confidence)).sum
        / ((dets.filter (fun d => decide (d.timestamp = t))).length : ℚ)) = _
    rw [if_neg (Nat.pos_iff_ne_zero.mp hlen)]
    rfl

/-- Witness for C8: a single detection at timestamp `0` with no
movements. -/
theorem c8_temporal_aggregation_witness :
    ((extract_temporal_data [detAt "person" 0 0] []).map (fun r => r.timestamp)).Nodup
    ∧ ((0 : ℚ) ∈ (extract_temporal_data [detAt "person" 0 0] []).map (fun r => r.timestamp)
        ↔ (0 : ℚ) ∈ ([detAt "person" 0 0].map (fun d => d.timestamp))) :=
  ⟨(c8_temporal_aggregation [detAt "person" 0 0] []).1,
   (c8_temporal_aggregation [detAt "person" 0 0] []).2.1 0⟩

theorem getLastD_append_one (l : List α) (a : α) : ∀ (d : α), (l ++ [a]).getLastD d = a := by
  induction l with
  | nil => intro d; rfl
  | cons x xs ih =>
    intro d
    rw [List.cons_append, List.getLastD_cons]
    exact ih x

theorem getLastD_append_two (l : List α) (a b : α) : ∀ (d : α), (l ++ [a, b]).getLastD d = b := by
  induction l with
  | nil => intro d; rfl
  | cons x xs ih =>
    intro d
    rw [List.cons_append, List.getLastD_cons]
    exact ih x

theorem adjacentOK_replicate_append (p : α → α → Bool) (a : α) (h : p a a = true) :
    ∀ (n : ℕ) (l : List α), adjacentOK p (a :: l) = true →
      adjacentOK p (List.replicate (n+1) a ++ l) = true := by
  intro n
  induction n with
  | zero => intro l hl; simpa [List.replicate_succ] using hl
  | succ n ih =>
    intro l hl
    have hstep : List.replicate (n+1+1) a ++ l = a :: (List.replicate (n+1) a ++ l) := by
      simp [List.replicate_succ]
    have h2 : List.replicate (n+1) a ++ l = a :: (List.replicate n a ++ l) := by
      simp [List.replicate_succ]
    rw [hstep, h2]
    show (p a a && adjacentOK p (a :: (List.replicate n a ++ l))) = true
    rw [h, Bool.true_and, ← h2]
    exact ih l hl

/-- Shape of a `runStages` run: either every stage succeeded (the status
never changes, no error event, the result is untouched) or the first
failing stage flipped the status to `failed` with its message. -/
theorem runStages_spec (l : List (ℕ × String × Except String Unit)) : ∀ (j : Job),
    ((runStages j l).2.2.2 = none →
      ((j :: (runStages j l).2.1).map Job.status
          = List.replicate ((runStages j l).2.1.length + 1) j.status)
      ∧ (runStages j l).1.status = j.status
      ∧ (runStages j l).1.result = j.result
      ∧ ((runStages j l).2.2.1.filter Event.isError) = []
      ∧ (∀ s ∈ (runStages j l).2.1, s.result = j.result)
      ∧ ((runStages j l).2.1.getLastD j = (runStages j l).1))
    ∧ (∀ e, (runStages j l).2.2.2 = some e →
      (∃ n, (j :: (runStages j l).2.1).map Job.status
          = List.replicate (n+1) j.status ++ [ProcessingStatus.failed])
      ∧ (runStages j l).1.status = ProcessingStatus.failed
      ∧ (runStages j l).1.error = some e
      ∧ ((runStages j l).2.2.1.filter Event.isError) = [Event.errorEv e]
      ∧ (∀ s ∈ (runStages j l).2.1, s.result = j.result)
      ∧ ((runStages j l).2.1.getLastD j = (runStages j l).1)) := by
  induction l with
  | nil =>
    intro j
    refine ⟨fun _ => ⟨rfl, rfl, rfl, rfl, by intro s hs; exact absurd hs (List.not_mem_nil s), rfl⟩,
      fun e he => Option.noConfusion he⟩
  | cons stage rest ih =>
    intro j
    obtain ⟨p, msg, st⟩ := stage
    cases st with
    | error e0 =>
      constructor
      · intro hnone
        exact Option.noConfusion hnone
      · intro e he
        cases Option.some.inj he
        refine ⟨⟨1, rfl⟩, rfl, rfl, rfl, ?_, rfl⟩
        intro s hs
        rcases List.mem_cons.mp hs with hs | hs
        · rw [hs]
        · rcases List.mem_cons.mp hs with hs | hs
          · rw [hs]
          · exact absurd hs (List.not_mem_nil s)
    | ok u =>
      simp only [runStages]
      obtain ⟨ih1, ih2⟩ := ih { j with progress := p, message := some msg }
      constructor
      · intro hnone
        obtain ⟨hmap, hstat, hres, hev, hall, hlast⟩ := ih1 hnone
        refine ⟨?_, hstat, hres, ?_, ?_, ?_⟩
        · rw [List.map_cons, hmap, List.length_cons, List.replicate_succ]
          rfl
        · simp [Event.isError, hev]
        · intro s hs
          rcases List.mem_cons.mp hs with hs | hs
          · rw [hs]
          · exact hall s hs
        · rw [List.getLastD_cons]
          exact hlast
      · intro e he
        obtain ⟨⟨n, hmap⟩, hstat, herr2, hev, hall, hlast⟩ := ih2 e he
        refine ⟨⟨n+1, ?_⟩, hstat, herr2, ?_, ?_, ?_⟩
        · rw [List.map_cons, hmap, List.replicate_succ, List.cons_append]
          rfl
        · simp [Event.isError, hev]
        · intro s hs
          rcases List.mem_cons.mp hs with hs | hs
          · rw [hs]
          · exact hall s hs
        · rw [List.getLastD_cons]
          exact hlast

/-- The first failure seen while walking the checkpoints is exactly the
first failure of the value computation. -/
theorem runStages_err (env : PipelineEnv) (j : Job) :
    (runStages j (stages env)).2.2.2
      = (match runPipeline env with | .error e => some e | .ok _ => none) := by
  unfold stages runPipeline
  cases env.metadata <;> cases env.framePaths <;> cases env.detections <;>
    cases env.movements <;> cases env.zones <;> cases env.zoneInteractions <;>
    cases env.attributes <;> cases env.temporalData <;> rfl

/-- Shape of the status trace of one background run started on any job:
a block of unchanged statuses followed by one of the three possible
tails. -/
theorem pvb_status_shape (env : PipelineEnv) (j : Job) :
    ∃ (n : ℕ) (tail : List ProcessingStatus),
      (j :: (process_video_background env j).1).map Job.status
        = List.replicate (n+1) j.status ++ tail
      ∧ (tail = [ProcessingStatus.failed]
         ∨ tail = [ProcessingStatus.completed]
         ∨ (tail = [ProcessingStatus.completed, ProcessingStatus.failed]
            ∧ ∃ e, env.cleanup = Except.error e)) := by
  cases herr : (runStages j (stages env)).2.2.2 with
  | some e =>
    obtain ⟨⟨n, hmap⟩, -, -, -, -, -⟩ := (runStages_spec (stages env) j).2 e herr
    refine ⟨n, [ProcessingStatus.failed], ?_, Or.inl rfl⟩
    simp only [process_video_background, herr]
    exact hmap
  | none =>
    obtain ⟨hmap, -, -, -, -, -⟩ := (runStages_spec (stages env) j).1 herr
    cases hrp : runPipeline env with
    | error e =>
      refine ⟨(runStages j (stages env)).2.1.length, [ProcessingStatus.failed], ?_, Or.inl rfl⟩
      simp only [process_video_background, herr, hrp]
      rw [← List.cons_append, List.map_append, hmap]
      rfl
    | ok b =>
      cases hcl : env.cleanup with
      | ok u =>
        refine ⟨(runStages j (stages env)).2.1.length, [ProcessingStatus.completed], ?_,
          Or.inr (Or.inl rfl)⟩
        simp only [process_video_background, herr, hrp, hcl]
        rw [← List.cons_append, List.map_append, hmap]
        rfl
      | error e =>
        refine ⟨(runStages j (stages env)).2.1.length,
          [ProcessingStatus.completed, ProcessingStatus.failed], ?_,
          Or.inr (Or.inr ⟨rfl, e, rfl⟩)⟩
        simp only [process_video_background, herr, hrp, hcl]
        rw [← List.cons_append, List.map_append, hmap]
        rfl

/-- C1 (amended): `start_processing` moves a job to `processing` exactly
from the `uploaded` state and rejects otherwise; along every observable
state trace of a background run started on a `processing` job the status
rank `uploaded < processing < terminal` never decreases, and every status
change is `processing -> completed`, `processing -> failed`, or
`completed -> failed`; the last move cannot happen when the
post-completion cleanup succeeds, which is the case the original claim
describes.  Composing an upload with `start_processing` and the
background run also never moves the status backward. -/
theorem c1_status_transitions :
    (∀ j : Job, j.status = ProcessingStatus.uploaded →
        start_processing j = Except.ok { j with status := ProcessingStatus.processing })
    ∧ (∀ j : Job, j.status ≠ ProcessingStatus.uploaded →
        start_processing j = Except.error "Job not ready for processing")
    ∧ (∀ (env : PipelineEnv) (j : Job), j.status = ProcessingStatus.processing →
        adjacentOK rankMove ((j :: (process_video_background env j).1).map Job.status) = true)
    ∧ (∀ (env : PipelineEnv) (j : Job), j.status = ProcessingStatus.processing →
        adjacentOK actualMove ((j :: (process_video_background env j).1).map Job.status) = true)
    ∧ (∀ (env : PipelineEnv) (j : Job), j.status = ProcessingStatus.processing →
        env.cleanup = Except.ok () →
        adjacentOK claimedMove ((j :: (process_video_background env j).1).map Job.status) = true)
    ∧ (∀ (env : PipelineEnv) (j : Job), j.status = ProcessingStatus.uploaded →
        adjacentOK rankMove
          ((j :: { j with status := ProcessingStatus.processing }
              :: (process_video_background env { j with status := ProcessingStatus.processing }).1).map
            Job.status) = true) := by
  have hblock : ∀ (p : ProcessingStatus → ProcessingStatus → Bool) (env : PipelineEnv) (j : Job),
      j.status = ProcessingStatus.processing →
      p ProcessingStatus.processing ProcessingStatus.processing = true →
      (∀ tail, (tail = [ProcessingStatus.failed]
          ∨ tail = [ProcessingStatus.completed]
          ∨ (tail = [ProcessingStatus.completed, ProcessingStatus.failed]
             ∧ ∃ e, env.cleanup = Except.error e)) →
        adjacentOK p (ProcessingStatus.processing :: tail) = true) →
      adjacentOK p ((j :: (process_video_background env j).1).map Job.status) = true := by
    intro p env j hj hpp htail
    obtain ⟨n, tail, hmap, hshape⟩ := pvb_status_shape env j
    rw [hmap, hj]
    exact adjacentOK_replicate_append p ProcessingStatus.processing hpp n tail
      (htail tail hshape)
  refine ⟨?_, ?_, ?_, ?_, ?_, ?_⟩
  · intro j hj
    unfold start_processing
    rw [if_pos hj]
  · intro j hj
    unfold start_processing
    rw [if_neg hj]
  · intro env j hj
    refine hblock rankMove env j hj rfl ?_
    intro tail hshape
    rcases hshape with rfl | rfl | ⟨rfl, -⟩ <;> rfl
  · intro env j hj
    refine hblock actualMove env j hj rfl ?_
    intro tail hshape
    rcases hshape with rfl | rfl | ⟨rfl, -⟩ <;> rfl
  · intro env j hj hcl
    refine hblock claimedMove env j hj rfl ?_
    intro tail hshape
    rcases hshape with rfl | rfl | ⟨rfl, e, hcl2⟩
    · rfl
    · rfl
    · rw [hcl] at hcl2
      exact Except.noConfusion hcl2
  · intro env j hj
    obtain ⟨n, tail, hmap, hshape⟩ :=
      pvb_status_shape env { j with status := ProcessingStatus.processing }
    rw [List.map_cons, hmap, hj]
    show adjacentOK rankMove (ProcessingStatus.uploaded
      :: (List.replicate (n+1) ProcessingStatus.processing ++ tail)) = true
    rw [List.replicate_succ, List.cons_append]
    show (rankMove ProcessingStatus.uploaded ProcessingStatus.processing
      && adjacentOK rankMove (ProcessingStatus.processing
          :: (List.replicate n ProcessingStatus.processing ++ tail))) = true
    rw [show rankMove ProcessingStatus.uploaded ProcessingStatus.processing = true from rfl,
      Bool.true_and, ← List.cons_append, ← List.replicate_succ]
    refine adjacentOK_replicate_append rankMove ProcessingStatus.processing rfl n tail ?_
    rcases hshape with rfl | rfl | ⟨rfl, -⟩ <;> rfl

/-- Witness for C1 on a processing job whose pipeline and cleanup all
succeed. -/
theorem c1_status_transitions_witness :
    adjacentOK claimedMove
      ((processingJob :: (process_video_background envAllOk processingJob).1).map Job.status)
      = true :=
  c1_status_transitions.2.2.2.2.1 envAllOk processingJob rfl rfl

/-- C1 counterexample: when the pipeline succeeds but
`cleanup_temp_files` raises (still inside the `try` of
`process_video_background`), the observable trace moves the job from
`completed` to `failed`, so the background task does not move the status
only from `processing`. -/
theorem c1_counterexample :
    adjacentOK claimedMove
      ((processingJob :: (process_video_background envCleanupFails processingJob).1).map Job.status)
      = false := by
  decide

/-- C2: whenever any stage of the background pipeline (or the
post-completion cleanup) raises, the handler of
`process_video_background` leaves the job `failed` with the raised
message in its `error` field, emits exactly one `processing_error` event
carrying that message (so no retry happens), and the stored result is
never a partial bundle: it is either untouched (`none`, as for a job
entering the run) or the complete bundle of a fully successful
pipeline. -/
theorem c2_exception_handling (env : PipelineEnv) (j0 : Job) (e : String)
    (hres : j0.result = none) (hfail : firstError env = some e) :
    (finalJob env j0).status = ProcessingStatus.failed
    ∧ (finalJob env j0).error = some e
    ∧ ((process_video_background env j0).2.filter Event.isError) = [Event.errorEv e]
    ∧ (∀ s ∈ (process_video_background env j0).1,
        s.result = none ∨ ∃ b, runPipeline env = Except.ok b ∧ s.result = some b) := by
  unfold firstError at hfail
  cases hrp : runPipeline env with
  | error e0 =>
    rw [hrp] at hfail
    cases Option.some.inj hfail
    have herr : (runStages j0 (stages env)).2.2.2 = some e := by
      rw [runStages_err env j0, hrp]
    obtain ⟨-, hstat, herror, hevf, hall, hlast⟩ := (runStages_spec (stages env) j0).2 e herr
    unfold finalJob
    simp only [process_video_background, herr]
    refine ⟨by rw [hlast]; exact hstat, by rw [hlast]; exact herror, hevf, ?_⟩
    intro s hs
    exact Or.inl (by rw [hall s hs, hres])
  | ok b =>
    rw [hrp] at hfail
    cases hcl : env.cleanup with
    | ok u =>
      rw [hcl] at hfail
      exact Option.noConfusion hfail
    | error e0 =>
      rw [hcl] at hfail
      cases Option.some.inj hfail
      have herr : (runStages j0 (stages env)).2.2.2 = none := by
        rw [runStages_err env j0, hrp]
      obtain ⟨-, -, -, hevf, hall, -⟩ := (runStages_spec (stages env) j0).1 herr
      unfold finalJob
      simp only [process_video_background, herr, hrp, hcl]
      refine ⟨?_, ?_, ?_, ?_⟩
      · rw [getLastD_append_two]
      · rw [getLastD_append_two]
      · rw [List.filter_append, hevf]
        rfl
      · intro s hs
        rcases List.mem_append.mp hs with hs | hs
        · exact Or.inl (by rw [hall s hs, hres])
        · rcases List.mem_cons.mp hs with hs | hs
          · exact Or.inr ⟨b, rfl, by rw [hs]⟩
          · rcases List.mem_cons.mp hs with hs | hs
            · exact Or.inr ⟨b, rfl, by rw [hs]⟩
            · exact absurd hs (List.not_mem_nil s)

/-- Witness for C2: the metadata stage raises on a processing job. -/
theorem c2_exception_handling_witness :
    (finalJob envMetadataFails processingJob).status = ProcessingStatus.failed
    ∧ (finalJob envMetadataFails processingJob).error = some "Could not open video file"
    ∧ ((process_video_background envMetadataFails processingJob).2.filter Event.isError)
        = [Event.errorEv "Could not open video file"] :=
  ⟨(c2_exception_handling envMetadataFails processingJob "Could not open video file" rfl rfl).1,
   (c2_exception_handling envMetadataFails processingJob "Could not open video file" rfl rfl).2.1,
   (c2_exception_handling envMetadataFails processingJob "Could not open video file" rfl rfl).2.2.1⟩

end VideoAgent
